import Mathlib

/-!
Shallow embedding of the mynitor Python SDK (src/python/mynitor), covering the
event dispatcher (flush / _send_event), the monitor context manager and its
tracker, the three provider instrumentation installers, workflow-name
derivation, the serverless auto-flush setup, and the CLI ping command.
Python exceptions are modelled with `Except`, mutable state by explicit state
passing, and the gemini loop-variable closure cell by computing the final
value the shared variable holds after the loop.
-/

namespace Mynitor

/-- A Python exception value: the name of its type and its textual message
(`type(e).__name__` and `str(e)`). -/
structure PyExn where
  name : String
  msg : String
deriving DecidableEq

/-- Callsite attributes returned by `_get_callsite` (an empty dict on failure
is modelled by `none` fields). -/
structure Callsite where
  file : Option String
  line_number : Option Int
  function_name : Option String
  callsite_hash : Option String
deriving DecidableEq

/-- Split a character list on every occurrence of `sep`, like Python
`s.split(sep)`: always at least one (possibly empty) piece. -/
def splitOnChar (sep : Char) : List Char → List (List Char)
  | [] => [[]]
  | c :: rest =>
    let r := splitOnChar sep rest
    if c = sep then [] :: r
    else
      match r with
      | [] => [[c]]
      | h :: t => (c :: h) :: t

/-- Join character-list pieces with a separator, like `sep.join(pieces)`. -/
def joinWith (sep : Char) : List (List Char) → List Char
  | [] => []
  | [x] => x
  | x :: xs => x ++ sep :: joinWith sep xs

/-- `os.path.basename` on a POSIX path: the component after the last slash. -/
def basename (p : String) : String :=
  String.mk ((splitOnChar '/' p.data).getLastD [])

/-- Python `s.rsplit(".", 1)[0]` guarded by `if "." in s`: everything before
the last dot, or the whole string when there is no dot. -/
def stripExt (s : String) : String :=
  if s.data.any (fun c => c = '.') then
    String.mk (joinWith '.' (splitOnChar '.' s.data).dropLast)
  else s

/-- `Mynitor._derive_workflow_name`: take the basename of the callsite file
(defaulting to "unknown"), strip its extension, and return it.  The source
also reads `function_name` into a local variable `func` but never uses it. -/
def deriveWorkflowName (c : Callsite) : String :=
  let filename := basename (c.file.getD "unknown")
  let filename := stripExt filename
  let _func := c.function_name.getD "unknown"
  filename

/-- Python truthiness on an optional string: `None` and `""` are falsy. -/
def truthyStr (o : Option String) : Option String :=
  match o with
  | none => none
  | some s => if s = "" then none else some s

/-- The workflow-selection logic shared by `monitor` and the installers:
`if not workflow: workflow = self.workflow_id or self._derive_workflow_name(callsite)`. -/
def chooseWorkflow (explicitW configuredW : Option String) (c : Callsite) : String :=
  match truthyStr explicitW with
  | some w => w
  | none =>
    match truthyStr configuredW with
    | some w => w
    | none => deriveWorkflowName c

/-- The environment keys `_setup_auto_flush` checks for a serverless host. -/
def serverlessKeys : List String :=
  ["AWS_LAMBDA_FUNCTION_NAME", "VERCEL", "NETLIFY", "FUNCTIONS_WORKER_RUNTIME"]

/-- `any(os.getenv(k) for k in ...)`: an environment is serverless when one of
the keys has a truthy (non-empty) value.  `env k = ""` models both an unset
variable and one set to the empty string, which are equally falsy in Python. -/
def isServerless (env : String → String) : Bool :=
  serverlessKeys.any (fun k => env k ≠ "")

/-- What `_setup_auto_flush` does at construction time. -/
inductive AutoFlushAction where
  | registeredAtexitFlush
  | loggedServerlessHint
deriving DecidableEq

/-- `Mynitor._setup_auto_flush`: register `self.flush` with `atexit` exactly
when no serverless indicator is detected; otherwise only log a hint. -/
def setupAutoFlush (env : String → String) : AutoFlushAction :=
  if isServerless env then .loggedServerlessHint else .registeredAtexitFlush

/-- The keyword arguments handed to `_send_event` by the various call paths.
A `none` in an `Option` field models a Python `None` value or an absent key
(`_handle_exception` passes no token or retry keys; `monitor` passes
`model=None` when no model was given). -/
structure EventArgs where
  agent : String
  workflow : String
  model : Option String
  provider : String
  request_id : String
  latency_ms : Int
  input_tokens : Option Int
  output_tokens : Option Int
  retry_count : Option Int
  status : String
  error_type : Option String
  metadata : List (String × String)
  callsite : Callsite
deriving DecidableEq

/-- The JSON payload `_send_event` builds: the kwargs plus `event_version`
and `timestamp` (`datetime.utcnow().isoformat() + "Z"`, with the clock
reading passed in as `now`). -/
structure Event where
  event_version : String
  timestamp : String
  args : EventArgs
deriving DecidableEq

def buildPayload (now : String) (a : EventArgs) : Event :=
  { event_version := "1.0", timestamp := now ++ "Z", args := a }

/-- Dispatcher state: `self._executor`, a thread pool holding the queue of
submitted-but-unsent payloads; `none` models a falsy `_executor`. -/
structure Dispatcher where
  executor : Option (List Event)
deriving DecidableEq

/-- How one `_send_event` call ended. -/
inductive SendOutcome where
  | droppedNoExecutor
  | queued
  | droppedSubmitError
deriving DecidableEq

/-- `executor.submit(...)`: schedules the delivery task, or raises (for
example `RuntimeError` after shutdown); `submitFails` selects the outcome. -/
def executorSubmit (submitFails : Bool) (q : List Event) (p : Event) :
    Except PyExn (List Event) :=
  if submitFails then .error ⟨"RuntimeError", "cannot schedule new futures"⟩
  else .ok (q ++ [p])

/-- `Mynitor._send_event`: return early on a falsy executor, build the
payload, and submit it inside a `try/except: pass`.  The top-level `Except`
is the exception channel visible to the caller. -/
def sendEvent (submitFails : Bool) (now : String) (d : Dispatcher)
    (a : EventArgs) : Except PyExn (SendOutcome × Dispatcher) :=
  match d.executor with
  | none => .ok (.droppedNoExecutor, d)
  | some q =>
    let payload := buildPayload now a
    match executorSubmit submitFails q payload with
    | .ok q' => .ok (.queued, ⟨some q'⟩)
    | .error _ => .ok (.droppedSubmitError, d)

/-- `Mynitor.flush`: if the executor exists, `shutdown(wait=True)` runs every
pending delivery attempt to completion (the `timeout` parameter is accepted
but unused by the source), then a fresh executor is created.  Returns the
payloads whose transmission attempt completed during the drain, paired with
the new dispatcher state. -/
def flush (d : Dispatcher) (_timeout : Nat) : List Event × Dispatcher :=
  match d.executor with
  | none => ([], d)
  | some q => (q, ⟨some []⟩)

/-- Association lookup in a Python dict modelled as an insertion-ordered
list of key/value pairs. -/
def lookupStr : List (String × String) → String → Option String
  | [], _ => none
  | (k, v) :: rest, key => if k = key then some v else lookupStr rest key

/-- Python `d[k] = v` on a dict: replace the value at an existing key, else
append the new pair. -/
def dictInsert : List (String × String) → String → String → List (String × String)
  | [], k, v => [(k, v)]
  | (k₀, v₀) :: rest, k, v =>
    if k₀ = k then (k, v) :: rest else (k₀, v₀) :: dictInsert rest k v

/-- The operations the `monitor` tracker handle exposes. -/
inductive TrackerOp where
  | setUsage (input_tokens output_tokens : Int)
  | setRetry (count : Int)
  | setMetadata (key value : String)
deriving DecidableEq

/-- The mutable `state` dict that `monitor` builds the event from. -/
structure MonitorState where
  input_tokens : Int
  output_tokens : Int
  retry_count : Int
  status : String
  error_type : Option String
  metadata : List (String × String)
deriving DecidableEq

/-- The initial tracker state set up by `monitor`. -/
def initMonitorState : MonitorState :=
  { input_tokens := 0, output_tokens := 0, retry_count := 0,
    status := "success", error_type := none, metadata := [] }

/-- One tracker method call: `set_usage` and `set_retry` store the
caller-supplied values verbatim; `set_metadata` writes one dict entry. -/
def applyOp (s : MonitorState) : TrackerOp → MonitorState
  | .setUsage i o => { s with input_tokens := i, output_tokens := o }
  | .setRetry c => { s with retry_count := c }
  | .setMetadata k v => { s with metadata := dictInsert s.metadata k v }

/-- The `except Exception as e` branch of `monitor`: force error status,
record the exception name and message. -/
def monitorOnError (s : MonitorState) (e : PyExn) : MonitorState :=
  { s with
    status := "error"
    error_type := some e.name
    metadata := dictInsert s.metadata "error_message" e.msg }

/-- Assemble the `_send_event` kwargs from the final `monitor` state. -/
def monitorEventArgs (agent workflow : String) (model : Option String)
    (provider request_id : String) (latency : Int) (cs : Callsite)
    (s : MonitorState) : EventArgs :=
  { agent := agent, workflow := workflow, model := model, provider := provider,
    request_id := request_id, latency_ms := latency,
    input_tokens := some s.input_tokens, output_tokens := some s.output_tokens,
    retry_count := some s.retry_count, status := s.status,
    error_type := s.error_type, metadata := s.metadata, callsite := cs }

/-- One execution of the `monitor` context manager: the tracker operations
the body performed, then the body outcome (`.error e` when the body raised),
producing the kwargs handed to `_send_event` in the `finally` block and the
outcome re-raised (or returned) to the caller. -/
def monitorRun (agent workflow : String) (model : Option String)
    (provider request_id : String) (latency : Int) (cs : Callsite)
    (ops : List TrackerOp) (body : Except PyExn Unit) :
    EventArgs × Except PyExn Unit :=
  let s := ops.foldl applyOp initMonitorState
  let s :=
    match body with
    | .ok _ => s
    | .error e => monitorOnError s e
  (monitorEventArgs agent workflow model provider request_id latency cs s, body)

/-- `Mynitor._handle_exception`: the kwargs of the error event it sends
(no token or retry keys are passed). -/
def handleExceptionArgs (agent workflow model provider request_id : String)
    (latency : Int) (cs : Callsite) (e : PyExn) : EventArgs :=
  { agent := agent, workflow := workflow, model := some model,
    provider := provider, request_id := request_id, latency_ms := latency,
    input_tokens := none, output_tokens := none, retry_count := none,
    status := "error", error_type := some e.name,
    metadata := [("error_message", e.msg)], callsite := cs }

/-- OpenAI-shaped usage block (`response.usage`). -/
structure OUsage where
  prompt_tokens : Int
  completion_tokens : Int
deriving DecidableEq

/-- OpenAI-shaped response: `usage` may be absent. -/
structure OResp where
  usage : Option OUsage
deriving DecidableEq

/-- The success event `patched_create` (OpenAI installer) sends: tokens from
`response.usage` with getattr defaults of 0. -/
def openaiSuccessArgs (agent workflow model request_id : String) (latency : Int)
    (cs : Callsite) (r : OResp) : EventArgs :=
  { agent := agent, workflow := workflow, model := some model,
    provider := "openai", request_id := request_id, latency_ms := latency,
    input_tokens := some (match r.usage with
      | some u => u.prompt_tokens
      | none => 0),
    output_tokens := some (match r.usage with
      | some u => u.completion_tokens
      | none => 0),
    retry_count := none, status := "success", error_type := none,
    metadata := [], callsite := cs }

/-- One invocation of the body of `patched_create` (OpenAI installer): given
the outcome of `original_create`, the events handed to `_send_event` and the
value returned (or the exception re-raised) to the caller. -/
def openaiPatchedRun (agent workflow model request_id : String) (latency : Int)
    (cs : Callsite) (orig : Except PyExn OResp) :
    List EventArgs × Except PyExn OResp :=
  match orig with
  | .ok r =>
    ([openaiSuccessArgs agent workflow model request_id latency cs r], .ok r)
  | .error e =>
    ([handleExceptionArgs agent workflow model "openai" request_id latency cs e],
      .error e)

/-- A tracker operation passes only non-negative usage values. -/
def opNonNegB : TrackerOp → Bool
  | .setUsage i o => decide (0 ≤ i) && decide (0 ≤ o)
  | .setRetry _ => true
  | .setMetadata _ _ => true

/-- The event's `status` field is one of the two enum values. -/
def statusOk (ev : EventArgs) : Prop :=
  ev.status = "success" ∨ ev.status = "error"

/-- Any token count the event carries is non-negative (events that omit the
token keys satisfy this vacuously). -/
def tokenOk (ev : EventArgs) : Prop :=
  (∀ i, ev.input_tokens = some i → 0 ≤ i) ∧
    (∀ o, ev.output_tokens = some o → 0 ≤ o)

/-- Context every wrapper closure captures: installer arguments plus the
per-invocation data (uuid, clock reading, callsite) modelled as inputs. -/
structure WrapCtx where
  agent : String
  workflow : String
  model : String
  request_id : String
  latency : Int
  callsite : Callsite

/-- `client.chat.completions.create`: either the original library method or
the `patched_create` closure, which carries the `_is_mynitor_wrapped` marker
and captured `original_create`.  A method maps a request to a response or a
raised exception. -/
inductive OMethod where
  | orig (f : Nat → Except PyExn OResp)
  | patched (f : Nat → Except PyExn OResp)

/-- The slice of an OpenAI client the installer touches. -/
structure OpenAIClient where
  create : OMethod

/-- `Mynitor.instrument_openai`: return the client unchanged when the current
`create` carries the wrapped marker, else replace it by `patched_create`
capturing the original. -/
def instrumentOpenai (c : OpenAIClient) : OpenAIClient :=
  match c.create with
  | .orig f => ⟨.patched f⟩
  | .patched _ => c

/-- Invoke `client.chat.completions.create`: the raw library method submits
no events; the patched method performs one timing/report cycle around it. -/
def callOMethod (ctx : WrapCtx) (m : OMethod) (req : Nat) :
    List EventArgs × Except PyExn OResp :=
  match m with
  | .orig f => ([], f req)
  | .patched f =>
    openaiPatchedRun ctx.agent ctx.workflow ctx.model ctx.request_id
      ctx.latency ctx.callsite (f req)

/-- Anthropic-shaped usage block. -/
structure AUsage where
  input_tokens : Int
  output_tokens : Int
deriving DecidableEq

/-- Anthropic-shaped response: `usage`, `model` and `id` may be absent. -/
structure AResp where
  usage : Option AUsage
  model : Option String
  id : Option String
deriving DecidableEq

/-- `client.messages.create`: original, or one of the two wrapper flavours
the installer defines depending on whether the client is async. -/
inductive AMethod where
  | orig (f : Nat → Except PyExn AResp)
  | patchedSync (f : Nat → Except PyExn AResp)
  | patchedAsync (f : Nat → Except PyExn AResp)

/-- The slice of an Anthropic client the installer touches; `isAsync` models
the `hasattr(client, "__aenter__") or "Async" in type name` test. -/
structure AnthropicClient where
  isAsync : Bool
  create : AMethod

/-- `Mynitor.instrument_anthropic`: skip when marked, else install the sync
or async wrapper according to the detected client kind. -/
def instrumentAnthropic (c : AnthropicClient) : AnthropicClient :=
  match c.create with
  | .orig f =>
    if c.isAsync then { c with create := .patchedAsync f }
    else { c with create := .patchedSync f }
  | .patchedSync _ => c
  | .patchedAsync _ => c

/-- The success event the anthropic wrappers send: model and request id fall
back to the response-supplied attributes, tokens default to 0. -/
def anthropicSuccessArgs (ctx : WrapCtx) (r : AResp) : EventArgs :=
  { agent := ctx.agent, workflow := ctx.workflow,
    model := some (r.model.getD ctx.model), provider := "anthropic",
    request_id := r.id.getD ctx.request_id, latency_ms := ctx.latency,
    input_tokens := some (match r.usage with
      | some u => u.input_tokens
      | none => 0),
    output_tokens := some (match r.usage with
      | some u => u.output_tokens
      | none => 0),
    retry_count := none, status := "success", error_type := none,
    metadata := [], callsite := ctx.callsite }

/-- The shared body of the two anthropic wrappers: on success, one success
event with response-supplied model/id fallbacks; on exception, one error
event via `_handle_exception`, then the exception is re-raised. -/
def anthropicPatchedRun (ctx : WrapCtx) (orig : Except PyExn AResp) :
    List EventArgs × Except PyExn AResp :=
  match orig with
  | .ok r => ([anthropicSuccessArgs ctx r], .ok r)
  | .error e =>
    ([handleExceptionArgs ctx.agent ctx.workflow ctx.model "anthropic"
        ctx.request_id ctx.latency ctx.callsite e], .error e)

/-- Invoke `client.messages.create` the way its client is used (a plain call
on a sync client, call-and-await on an async one): either wrapper flavour
runs its body once around the captured original. -/
def invokeAMethod (ctx : WrapCtx) (m : AMethod) (req : Nat) :
    List EventArgs × Except PyExn AResp :=
  match m with
  | .orig f => ([], f req)
  | .patchedSync f => anthropicPatchedRun ctx (f req)
  | .patchedAsync f => anthropicPatchedRun ctx (f req)

/-- Gemini-shaped usage block (`response.usage_metadata`). -/
structure GUsage where
  prompt_token_count : Int
  candidates_token_count : Int
deriving DecidableEq

/-- Gemini-shaped response. -/
structure GResp where
  usage_metadata : Option GUsage
deriving DecidableEq

/-- An original gemini entry point is either the sync `generate_content` or
the async `generate_content_async` coroutine function. -/
inductive GFun where
  | syncFn (f : Nat → Except PyExn GResp)
  | asyncFn (f : Nat → Except PyExn GResp)

/-- A method slot on a gemini model instance: an original, or one of the two
wrappers `instrument_gemini` installs.  Both wrappers delegate through the
loop-local variable `original_method`, so each stores the method that
variable holds once the installer loop has finished. -/
inductive GMethod where
  | orig (f : GFun)
  | patchedSync (delegate : GMethod)
  | patchedAsync (delegate : GMethod)

/-- The `_is_mynitor_wrapped` marker on a gemini method slot. -/
def gIsMarked : GMethod → Bool
  | .orig _ => false
  | .patchedSync _ => true
  | .patchedAsync _ => true

/-- The two attributes `instrument_gemini` iterates over. -/
structure GeminiInstance where
  generate_content : Option GMethod
  generate_content_async : Option GMethod

/-- The value the loop variable `original_method` holds after the installer
loop: the loop handles `generate_content` then `generate_content_async`, and
`original_method = getattr(...)` runs for every present attribute (even ones
skipped as already wrapped), so the last present attribute wins. -/
def geminiCellFinal (inst : GeminiInstance) : Option GMethod :=
  match inst.generate_content_async with
  | some m => some m
  | none => inst.generate_content

/-- `Mynitor.instrument_gemini`: patch each present, unmarked attribute with
a wrapper.  Every wrapper closure reads `original_method` late, so its
delegate is the final cell value, not the method of its own iteration. -/
def instrumentGemini (inst : GeminiInstance) : GeminiInstance :=
  let cell := geminiCellFinal inst
  let newSync :=
    match inst.generate_content with
    | none => none
    | some m =>
      if gIsMarked m then some m
      else
        match cell with
        | some c => some (GMethod.patchedSync c)
        | none => some m
  let newAsync :=
    match inst.generate_content_async with
    | none => none
    | some m =>
      if gIsMarked m then some m
      else
        match cell with
        | some c => some (GMethod.patchedAsync c)
        | none => some m
  ⟨newSync, newAsync⟩

/-- A Python runtime value a gemini call can produce: a response object, or
an unawaited coroutine object (what calling an async function returns).  A
coroutine carries its pending body: awaiting it yields the telemetry events
the body would submit and its result. -/
inductive PyValue where
  | resp (r : GResp)
  | coroutine (body : Unit → List EventArgs × Except PyExn GResp)

/-- `getattr(response, "usage_metadata", None)` on a runtime value: a
coroutine object has no such attribute. -/
def usageOfValue : PyValue → Option GUsage
  | .resp r => r.usage_metadata
  | .coroutine _ => none

/-- The success event the gemini wrappers send. -/
def geminiSuccessArgs (ctx : WrapCtx) (v : PyValue) : EventArgs :=
  { agent := ctx.agent, workflow := ctx.workflow, model := some ctx.model,
    provider := "google", request_id := ctx.request_id,
    latency_ms := ctx.latency,
    input_tokens := some (match usageOfValue v with
      | some u => u.prompt_token_count
      | none => 0),
    output_tokens := some (match usageOfValue v with
      | some u => u.candidates_token_count
      | none => 0),
    retry_count := none, status := "success", error_type := none,
    metadata := [], callsite := ctx.callsite }

/-- The error event the gemini wrappers send via `_handle_exception`. -/
def geminiErrorArgs (ctx : WrapCtx) (e : PyExn) : EventArgs :=
  handleExceptionArgs ctx.agent ctx.workflow ctx.model "google" ctx.request_id
    ctx.latency ctx.callsite e

/-- `TypeError` raised when a plain (non-awaitable) value is awaited. -/
def awaitTypeErr : PyExn :=
  ⟨"TypeError", "object GenerateContentResponse can not be used in await expression"⟩

/-- Semantics of a gemini method slot, by structural recursion: the first
component is a plain (no `await`) Python call of the slot, the second is a
call-and-await of it.  Plain-calling an async function (or the async
wrapper) returns a coroutine whose body runs only when awaited; the sync
wrapper plain-calls its delegate, and the async wrapper awaits its delegate,
each then reporting exactly one event. -/
def gSem (ctx : WrapCtx) (m : GMethod) (req : Nat) :
    (List EventArgs × Except PyExn PyValue) ×
      (List EventArgs × Except PyExn GResp) :=
  match m with
  | .orig (.syncFn f) =>
    (([], (f req).map .resp),
      match f req with
      | .error e => ([], .error e)
      | .ok _ => ([], .error awaitTypeErr))
  | .orig (.asyncFn f) =>
    (([], .ok (.coroutine (fun _ => ([], f req)))), ([], f req))
  | .patchedSync d =>
    let dcall := (gSem ctx d req).1
    let call :=
      match dcall with
      | (evs, .ok v) => (evs ++ [geminiSuccessArgs ctx v], Except.ok v)
      | (evs, .error e) => (evs ++ [geminiErrorArgs ctx e], Except.error e)
    (call,
      match call with
      | (evs, .error e) => (evs, .error e)
      | (evs, .ok (.resp _)) => (evs, .error awaitTypeErr)
      | (evs, .ok (.coroutine body)) =>
        let br := body ()
        (evs ++ br.1, br.2))
  | .patchedAsync d =>
    let dawait := (gSem ctx d req).2
    let await :=
      match dawait with
      | (evs, .ok r) => (evs ++ [geminiSuccessArgs ctx (.resp r)], Except.ok r)
      | (evs, .error e) => (evs ++ [geminiErrorArgs ctx e], Except.error e)
    (([], .ok (.coroutine (fun _ => await))), await)

/-- Plain Python call of a gemini method slot (`model.generate_content(x)`). -/
def pyCallG (ctx : WrapCtx) (m : GMethod) (req : Nat) :
    List EventArgs × Except PyExn PyValue :=
  (gSem ctx m req).1

/-- Call-and-await of a gemini method slot
(`await model.generate_content_async(x)`). -/
def pyAwaitCallG (ctx : WrapCtx) (m : GMethod) (req : Nat) :
    List EventArgs × Except PyExn GResp :=
  (gSem ctx m req).2

/-- A demo sync `generate_content` returning a response with usage 3/4. -/
def gSyncDemo : Nat → Except PyExn GResp := fun _ => .ok ⟨some ⟨3, 4⟩⟩

/-- A demo async `generate_content_async` returning usage 7/8. -/
def gAsyncDemo : Nat → Except PyExn GResp := fun _ => .ok ⟨some ⟨7, 8⟩⟩

/-- A gemini model instance exposing both the sync and the async method. -/
def geminiDemo : GeminiInstance :=
  ⟨some (.orig (.syncFn gSyncDemo)), some (.orig (.asyncFn gAsyncDemo))⟩

/-- A concrete wrapper context. -/
def ctxDemo : WrapCtx :=
  ⟨"agent", "wf", "gemini-pro", "rid", 5, ⟨none, none, none, none⟩⟩

/-- The environment the CLI reads; `""` models an unset (or empty, equally
falsy) variable. -/
structure CliEnv where
  mynitor_api_key : String
  mynitor_api_url : String
deriving DecidableEq

/-- What one HTTP request would produce, consumed only if a request is made. -/
inductive HttpResult where
  | status (code : Nat)
  | netError (e : PyExn)
deriving DecidableEq

/-- `requests.post(...)` as the worker sees it: returns a response object or
raises a network exception. -/
def requestsPost (net : HttpResult) : Except PyExn Unit :=
  match net with
  | .status _ => .ok ()
  | .netError e => .error e

/-- `Mynitor._do_send_request`: one best-effort POST with every failure
swallowed by `try/except: pass`. -/
def doSendRequest (net : HttpResult) : Except PyExn Unit :=
  match requestsPost net with
  | .ok _ => .ok ()
  | .error _ => .ok ()

/-- Observable outcome of `run()`: the process exit code, how many HTTP
requests were attempted, and the printed lines. -/
structure CliOutcome where
  exitCode : Nat
  networkCalls : Nat
  output : List String
deriving DecidableEq

def missingKeyLine : String :=
  "❌ Error: MYNITOR_API_KEY environment variable is not set."

def usageLine : String := "Usage: python3 -m mynitor [ping|doctor|mock]"

def pingSuccessLine : String := "✅ Connection verified! Event sent to MyNitor Cloud."

/-- The `doctor` connection-report lines, by response category. -/
def doctorNetLines (net : HttpResult) : List String :=
  match net with
  | .status 200 =>
    ["✅ Connection: MyNitor Cloud is reachable", "✅ Organization: Verified"]
  | .status c => ["❌ Connection: API returned " ++ toString c]
  | .netError e =>
    if e.name = "SSLError" then
      ["❌ Connection: SSL Certificate Verification Failed",
       "   Error details: " ++ e.msg,
       "   💡 Suggestion: This looks like an SSL issue. Check your certificate store or proxy."]
    else if e.name = "ConnectionError" then
      ["❌ Connection: Failed to reach MyNitor Cloud",
       "   Error details: " ++ e.msg,
       "   💡 Suggestion: Check your internet connection or DNS settings."]
    else
      ["❌ Connection: An unexpected error occurred", "   Error: " ++ e.msg]

/-- `mynitor.__main__.run`: exit 1 with no network activity when the API key
is falsy, exit 1 on a missing command, then dispatch.  `doctor` and `mock`
always return (exit 0) after their one request; `ping` exits 0 on a 200/201
response and 1 on any other response or network error.  The response body is
not modelled, so the doctor organization line shows its fallback text. -/
def runCli (env : CliEnv) (argv : List String) (net : HttpResult) : CliOutcome :=
  if env.mynitor_api_key = "" then
    { exitCode := 1, networkCalls := 0, output := [missingKeyLine] }
  else if argv.length < 2 then
    { exitCode := 1, networkCalls := 0, output := [usageLine] }
  else
    let command := (argv.get? 1).getD ""
    if command = "doctor" then
      { exitCode := 0, networkCalls := 1,
        output := ["🩺 MyNitor Doctor (v0.2.7)", "---------------------------",
          "✅ API Key: Detected", "📡 Testing Connection..."] ++ doctorNetLines net }
    else if command = "mock" then
      { exitCode := 0, networkCalls := 1,
        output := ["🎭 MyNitor: Sending mock OpenAI event to Cloud API..."] ++
          (match net with
           | .status 200 =>
             ["✅ Mock event sent successfully!",
              "✨ Check your dashboard /events page to see the generated data."]
           | .status 201 =>
             ["✅ Mock event sent successfully!",
              "✨ Check your dashboard /events page to see the generated data."]
           | .status c => ["❌ Failed: " ++ toString c]
           | .netError e => ["❌ Network Error: " ++ e.msg]) }
    else if command = "ping" then
      match net with
      | .status 200 =>
        { exitCode := 0, networkCalls := 1,
          output := ["🚀 MyNitor: Sending verification signal to Cloud API...",
            pingSuccessLine,
            "✨ Check your onboarding dashboard for the green checkmark."] }
      | .status 201 =>
        { exitCode := 0, networkCalls := 1,
          output := ["🚀 MyNitor: Sending verification signal to Cloud API...",
            pingSuccessLine,
            "✨ Check your onboarding dashboard for the green checkmark."] }
      | .status c =>
        { exitCode := 1, networkCalls := 1,
          output := ["🚀 MyNitor: Sending verification signal to Cloud API...",
            "❌ Failed to send event: " ++ toString c] }
      | .netError e =>
        { exitCode := 1, networkCalls := 1,
          output := ["🚀 MyNitor: Sending verification signal to Cloud API...",
            "❌ Network Error: Could not reach MyNitor Cloud.", e.msg] }
    else
      { exitCode := 0, networkCalls := 0,
        output := ["Unknown command: " ++ command, "Usage: python3 -m mynitor ping"] }

/-- Claim C1: flushing a dispatcher with pending events completes the
transmission attempt of every event submitted before the call, and leaves a
re-armed executor on which a subsequent submit is queued, not rejected. -/
theorem flush_drains_and_rearms (q : List Event) (t : Nat) :
    flush ⟨some q⟩ t = (q, ⟨some []⟩) ∧
      ∀ (now : String) (a : EventArgs),
        sendEvent false now (flush ⟨some q⟩ t).2 a =
          .ok (.queued, ⟨some [buildPayload now a]⟩) := by
  exact ⟨rfl, fun now a => rfl⟩

/-- Claim C2: `_send_event` never raises to the caller — with no executor or
with a failing submission the event is silently dropped and the dispatcher
state is untouched; the worker-side delivery likewise swallows every
transport failure. -/
theorem send_event_never_raises :
    (∀ (submitFails : Bool) (now : String) (d : Dispatcher) (a : EventArgs),
        (sendEvent submitFails now d a).isOk = true) ∧
      (∀ (submitFails : Bool) (now : String) (a : EventArgs),
        sendEvent submitFails now ⟨none⟩ a = .ok (.droppedNoExecutor, ⟨none⟩)) ∧
      (∀ (now : String) (q : List Event) (a : EventArgs),
        sendEvent true now ⟨some q⟩ a = .ok (.droppedSubmitError, ⟨some q⟩)) ∧
      (∀ net : HttpResult, doSendRequest net = .ok ()) := by
  refine ⟨fun submitFails now d a => ?_, fun _ _ _ => rfl, fun _ _ _ => rfl,
    fun net => ?_⟩
  · obtain ⟨_ | q⟩ := d
    · rfl
    · cases submitFails <;> rfl
  · cases net <;> rfl

theorem lookupStr_dictInsert (m : List (String × String)) (k v : String) :
    lookupStr (dictInsert m k v) k = some v := by
  induction m with
  | nil => simp [dictInsert, lookupStr]
  | cons p rest ih =>
    obtain ⟨k₀, v₀⟩ := p
    by_cases h : k₀ = k <;> simp [dictInsert, lookupStr, h, ih]

/-- Claim C3: when the wrapped call raises `e`, every provider adapter
(OpenAI, Anthropic, and both gemini wrappers) and the `monitor` scope submit
exactly one event with error status, `error_type` equal to the (non-empty)
exception type name, and `metadata.error_message` equal to the exception
message, and the original exception is re-raised unchanged. -/
theorem wrapped_call_error_event (agent workflow model request_id : String)
    (mmodel : Option String) (provider : String) (latency : Int)
    (cs : Callsite) (ops : List TrackerOp) (ctx : WrapCtx) (e : PyExn)
    (hname : e.name ≠ "") :
    (∃ ev, openaiPatchedRun agent workflow model request_id latency cs
          (.error e) = ([ev], .error e) ∧
        ev.status = "error" ∧ ev.error_type = some e.name ∧ e.name ≠ "" ∧
        lookupStr ev.metadata "error_message" = some e.msg) ∧
      ((monitorRun agent workflow mmodel provider request_id latency cs ops
            (.error e)).2 = .error e ∧
        (monitorRun agent workflow mmodel provider request_id latency cs ops
            (.error e)).1.status = "error" ∧
        (monitorRun agent workflow mmodel provider request_id latency cs ops
            (.error e)).1.error_type = some e.name ∧
        lookupStr (monitorRun agent workflow mmodel provider request_id latency
            cs ops (.error e)).1.metadata "error_message" = some e.msg) ∧
      (∃ ev, anthropicPatchedRun ctx (.error e) = ([ev], .error e) ∧
        ev.status = "error" ∧ ev.error_type = some e.name ∧
        lookupStr ev.metadata "error_message" = some e.msg) ∧
      (∀ (f : Nat → Except PyExn GResp) (req : Nat), f req = .error e →
        ∃ ev, pyCallG ctx (.patchedSync (.orig (.syncFn f))) req =
            ([ev], .error e) ∧
          ev.status = "error" ∧ ev.error_type = some e.name ∧
          lookupStr ev.metadata "error_message" = some e.msg) ∧
      (∀ (g : Nat → Except PyExn GResp) (req : Nat), g req = .error e →
        ∃ ev, pyAwaitCallG ctx (.patchedAsync (.orig (.asyncFn g))) req =
            ([ev], .error e) ∧
          ev.status = "error" ∧ ev.error_type = some e.name ∧
          lookupStr ev.metadata "error_message" = some e.msg) := by
  refine ⟨⟨handleExceptionArgs agent workflow model "openai" request_id latency cs e,
      rfl, rfl, rfl, hname, ?_⟩, ⟨rfl, rfl, rfl, ?_⟩, ?_, ?_, ?_⟩
  · simp [handleExceptionArgs, lookupStr]
  · simp only [monitorRun, monitorEventArgs, monitorOnError]
    exact lookupStr_dictInsert _ _ _
  · exact ⟨handleExceptionArgs ctx.agent ctx.workflow ctx.model "anthropic"
      ctx.request_id ctx.latency ctx.callsite e, rfl, rfl, rfl,
      by simp [handleExceptionArgs, lookupStr]⟩
  · intro f req hf
    refine ⟨geminiErrorArgs ctx e, ?_, rfl, rfl, ?_⟩
    · simp [pyCallG, gSem, hf, Except.map]
    · simp [geminiErrorArgs, handleExceptionArgs, lookupStr]
  · intro g req hg
    refine ⟨geminiErrorArgs ctx e, ?_, rfl, rfl, ?_⟩
    · simp [pyAwaitCallG, gSem, hg]
    · simp [geminiErrorArgs, handleExceptionArgs, lookupStr]

/-- Witness for C3 at a concrete exception and callsite. -/
theorem wrapped_call_error_event_witness :
    (∃ ev, openaiPatchedRun "agent" "wf" "gpt-4o" "rid" 12
          ⟨some "app.py", some 3, some "main", none⟩
          (.error ⟨"ValueError", "boom"⟩) = ([ev], .error ⟨"ValueError", "boom"⟩) ∧
        ev.status = "error" ∧ ev.error_type = some "ValueError" ∧
        ("ValueError" : String) ≠ "" ∧
        lookupStr ev.metadata "error_message" = some "boom") ∧
      ((monitorRun "agent" "wf" none "other" "rid" 12
            ⟨some "app.py", some 3, some "main", none⟩
            [TrackerOp.setMetadata "k" "v"] (.error ⟨"ValueError", "boom"⟩)).2 =
          .error ⟨"ValueError", "boom"⟩ ∧
        (monitorRun "agent" "wf" none "other" "rid" 12
            ⟨some "app.py", some 3, some "main", none⟩
            [TrackerOp.setMetadata "k" "v"] (.error ⟨"ValueError", "boom"⟩)).1.status =
          "error" ∧
        (monitorRun "agent" "wf" none "other" "rid" 12
            ⟨some "app.py", some 3, some "main", none⟩
            [TrackerOp.setMetadata "k" "v"] (.error ⟨"ValueError", "boom"⟩)).1.error_type =
          some "ValueError" ∧
        lookupStr (monitorRun "agent" "wf" none "other" "rid" 12
            ⟨some "app.py", some 3, some "main", none⟩
            [TrackerOp.setMetadata "k" "v"]
            (.error ⟨"ValueError", "boom"⟩)).1.metadata "error_message" =
          some "boom") ∧
      (∃ ev, anthropicPatchedRun ctxDemo (.error ⟨"ValueError", "boom"⟩) =
            ([ev], .error ⟨"ValueError", "boom"⟩) ∧
        ev.status = "error" ∧ ev.error_type = some "ValueError" ∧
        lookupStr ev.metadata "error_message" = some "boom") ∧
      (∃ ev, pyCallG ctxDemo
            (.patchedSync (.orig (.syncFn (fun _ => .error ⟨"ValueError", "boom"⟩)))) 0 =
            ([ev], .error ⟨"ValueError", "boom"⟩) ∧
        ev.status = "error" ∧ ev.error_type = some "ValueError" ∧
        lookupStr ev.metadata "error_message" = some "boom") ∧
      (∃ ev, pyAwaitCallG ctxDemo
            (.patchedAsync (.orig (.asyncFn (fun _ => .error ⟨"ValueError", "boom"⟩)))) 0 =
            ([ev], .error ⟨"ValueError", "boom"⟩) ∧
        ev.status = "error" ∧ ev.error_type = some "ValueError" ∧
        lookupStr ev.metadata "error_message" = some "boom") := by
  have h := wrapped_call_error_event "agent" "wf" "gpt-4o" "rid" none "other" 12
    ⟨some "app.py", some 3, some "main", none⟩ [TrackerOp.setMetadata "k" "v"]
    ctxDemo ⟨"ValueError", "boom"⟩ (by decide)
  exact ⟨h.1, h.2.1, h.2.2.1, h.2.2.2.1 (fun _ => .error ⟨"ValueError", "boom"⟩) 0 rfl,
    h.2.2.2.2 (fun _ => .error ⟨"ValueError", "boom"⟩) 0 rfl⟩

theorem foldl_applyOp_status (ops : List TrackerOp) (s : MonitorState) :
    (ops.foldl applyOp s).status = s.status := by
  induction ops generalizing s with
  | nil => rfl
  | cons op rest ih =>
    cases op <;> simp [List.foldl, applyOp, ih]

theorem foldl_applyOp_nonneg (ops : List TrackerOp) (s : MonitorState)
    (h : ∀ op ∈ ops, opNonNegB op = true)
    (hi : 0 ≤ s.input_tokens) (ho : 0 ≤ s.output_tokens) :
    0 ≤ (ops.foldl applyOp s).input_tokens ∧
      0 ≤ (ops.foldl applyOp s).output_tokens := by
  induction ops generalizing s with
  | nil => exact ⟨hi, ho⟩
  | cons op rest ih =>
    have hop := h op (List.mem_cons_self op rest)
    have hrest : ∀ o ∈ rest, opNonNegB o = true :=
      fun o ho => h o (List.mem_cons_of_mem op ho)
    cases op with
    | setUsage i o =>
      simp only [opNonNegB, Bool.and_eq_true, decide_eq_true_eq] at hop
      exact ih { s with input_tokens := i, output_tokens := o } hrest hop.1 hop.2
    | setRetry c => exact ih _ hrest hi ho
    | setMetadata k v => exact ih _ hrest hi ho

/-- Counterexample to claim C6 as stated: a monitor tracker whose
`set_usage` was called with `-1` produces a dispatched (queued) event whose
`input_tokens` is negative — the code stores arbitrary caller-supplied
values without clamping or validation. -/
theorem monitor_negative_usage_counterexample :
    (buildPayload "2024-01-01T00:00:00" (monitorRun "agent" "wf" none "other"
          "rid" 5 ⟨none, none, none, none⟩ [TrackerOp.setUsage (-1) 0]
          (.ok ())).1).args.input_tokens = some (-1) ∧
      sendEvent false "2024-01-01T00:00:00" ⟨some []⟩
          (monitorRun "agent" "wf" none "other" "rid" 5 ⟨none, none, none, none⟩
            [TrackerOp.setUsage (-1) 0] (.ok ())).1 =
        .ok (.queued, ⟨some [buildPayload "2024-01-01T00:00:00"
          (monitorRun "agent" "wf" none "other" "rid" 5 ⟨none, none, none, none⟩
            [TrackerOp.setUsage (-1) 0] (.ok ())).1]⟩) ∧
      ¬ (0 : Int) ≤ -1 :=
  ⟨rfl, rfl, by decide⟩

/-- Every event a gemini method slot emits — on a plain call, on a
call-and-await, or when a coroutine value it returned is later awaited —
carries a success-or-error status. -/
theorem gSem_status_events (ctx : WrapCtx) (m : GMethod) (req : Nat) :
    (∀ ev ∈ (gSem ctx m req).1.1, statusOk ev) ∧
      (∀ ev ∈ (gSem ctx m req).2.1, statusOk ev) ∧
      (∀ body, (gSem ctx m req).1.2 = .ok (.coroutine body) →
        ∀ ev ∈ (body ()).1, statusOk ev) := by
  induction m with
  | orig f =>
    cases f with
    | syncFn f =>
      refine ⟨by simp [gSem], ?_, ?_⟩
      · rcases hf : f req with e | r <;> simp [gSem, hf]
      · intro body hbody
        rcases hf : f req with e | r <;>
          simp [gSem, hf, Except.map] at hbody
    | asyncFn f =>
      refine ⟨by simp [gSem], by simp [gSem], ?_⟩
      intro body hbody
      simp only [gSem, Except.ok.injEq, PyValue.coroutine.injEq] at hbody
      subst hbody
      intro ev hev
      simp at hev
  | patchedSync d ih =>
    obtain ⟨ih1, _, ih3⟩ := ih
    rcases hd : (gSem ctx d req).1 with ⟨devs, dres⟩
    have hdevs : ∀ ev ∈ devs, statusOk ev := by
      intro ev hev
      exact ih1 ev (by rw [hd]; exact hev)
    have hdco : ∀ body, dres = .ok (.coroutine body) →
        ∀ ev ∈ (body ()).1, statusOk ev := by
      intro body hb
      exact ih3 body (by rw [hd]; exact hb)
    simp only [gSem]
    rw [hd]
    cases dres with
    | error e =>
      refine ⟨?_, ?_, ?_⟩
      · intro ev hev
        simp only [List.mem_append, List.mem_singleton] at hev
        rcases hev with h | h
        · exact hdevs ev h
        · subst h; right; rfl
      · intro ev hev
        simp only [List.mem_append, List.mem_singleton] at hev
        rcases hev with h | h
        · exact hdevs ev h
        · subst h; right; rfl
      · intro body hbody
        simp at hbody
    | ok v =>
      cases v with
      | resp r =>
        refine ⟨?_, ?_, ?_⟩
        · intro ev hev
          simp only [List.mem_append, List.mem_singleton] at hev
          rcases hev with h | h
          · exact hdevs ev h
          · subst h; left; rfl
        · intro ev hev
          simp only [List.mem_append, List.mem_singleton] at hev
          rcases hev with h | h
          · exact hdevs ev h
          · subst h; left; rfl
        · intro body hbody
          simp at hbody
      | coroutine body₀ =>
        refine ⟨?_, ?_, ?_⟩
        · intro ev hev
          simp only [List.mem_append, List.mem_singleton] at hev
          rcases hev with h | h
          · exact hdevs ev h
          · subst h; left; rfl
        · intro ev hev
          simp only [List.mem_append, List.mem_singleton] at hev
          rcases hev with (h | h) | h
          · exact hdevs ev h
          · subst h; left; rfl
          · exact hdco body₀ rfl ev h
        · intro body hbody
          simp only [Except.ok.injEq, PyValue.coroutine.injEq] at hbody
          subst hbody
          exact hdco _ rfl
  | patchedAsync d ih =>
    obtain ⟨_, ih2, _⟩ := ih
    rcases hd : (gSem ctx d req).2 with ⟨devs, dres⟩
    have hdevs : ∀ ev ∈ devs, statusOk ev := by
      intro ev hev
      exact ih2 ev (by rw [hd]; exact hev)
    simp only [gSem]
    rw [hd]
    cases dres with
    | ok r =>
      refine ⟨by simp, ?_, ?_⟩
      · intro ev hev
        simp only [List.mem_append, List.mem_singleton] at hev
        rcases hev with h | h
        · exact hdevs ev h
        · subst h; left; rfl
      · intro body hbody
        simp only [Except.ok.injEq, PyValue.coroutine.injEq] at hbody
        subst hbody
        intro ev hev
        simp only [List.mem_append, List.mem_singleton] at hev
        rcases hev with h | h
        · exact hdevs ev h
        · subst h; left; rfl
    | error e =>
      refine ⟨by simp, ?_, ?_⟩
      · intro ev hev
        simp only [List.mem_append, List.mem_singleton] at hev
        rcases hev with h | h
        · exact hdevs ev h
        · subst h; right; rfl
      · intro body hbody
        simp only [Except.ok.injEq, PyValue.coroutine.injEq] at hbody
        subst hbody
        intro ev hev
        simp only [List.mem_append, List.mem_singleton] at hev
        rcases hev with h | h
        · exact hdevs ev h
        · subst h; right; rfl

/-- Claim C6 (amended): every dispatched event has `event_version` and
`timestamp` set (added unconditionally by `_send_event`); every event the
provider adapters, the error path, or the monitor scope submit has `status`
set to success or error.  Token counts are stored without validation:
monitor events have non-negative tokens provided every `set_usage` call
supplied non-negative values (default 0 when never set); adapter success
events copy the response-supplied usage counts (default 0 when the usage
attribute is absent), hence are non-negative whenever those counts are; and
adapter error-path events omit the token keys. -/
theorem dispatched_event_invariants :
    (∀ (now : String) (a : EventArgs),
        (buildPayload now a).event_version = "1.0" ∧
          (buildPayload now a).timestamp = now ++ "Z") ∧
      (∀ (agent workflow : String) (mmodel : Option String)
          (provider request_id : String) (latency : Int) (cs : Callsite)
          (ops : List TrackerOp) (body : Except PyExn Unit),
        statusOk (monitorRun agent workflow mmodel provider request_id latency
            cs ops body).1 ∧
          ((∀ op ∈ ops, opNonNegB op = true) →
            tokenOk (monitorRun agent workflow mmodel provider request_id
              latency cs ops body).1)) ∧
      (∀ (agent workflow model request_id : String) (latency : Int)
          (cs : Callsite) (orig : Except PyExn OResp),
        (∀ ev ∈ (openaiPatchedRun agent workflow model request_id latency cs
            orig).1, statusOk ev) ∧
          ((∀ r u, orig = .ok r → r.usage = some u →
              0 ≤ u.prompt_tokens ∧ 0 ≤ u.completion_tokens) →
            ∀ ev ∈ (openaiPatchedRun agent workflow model request_id latency
              cs orig).1, tokenOk ev)) ∧
      (∀ (ctx : WrapCtx) (orig : Except PyExn AResp),
        (∀ ev ∈ (anthropicPatchedRun ctx orig).1, statusOk ev) ∧
          ((∀ r u, orig = .ok r → r.usage = some u →
              0 ≤ u.input_tokens ∧ 0 ≤ u.output_tokens) →
            ∀ ev ∈ (anthropicPatchedRun ctx orig).1, tokenOk ev)) ∧
      (∀ (ctx : WrapCtx) (m : GMethod) (req : Nat),
        (∀ ev ∈ (pyCallG ctx m req).1, statusOk ev) ∧
          (∀ ev ∈ (pyAwaitCallG ctx m req).1, statusOk ev)) ∧
      (∀ (ctx : WrapCtx) (f : Nat → Except PyExn GResp) (req : Nat),
        (∀ r u, f req = .ok r → r.usage_metadata = some u →
            0 ≤ u.prompt_token_count ∧ 0 ≤ u.candidates_token_count) →
        (∀ ev ∈ (pyCallG ctx (.patchedSync (.orig (.syncFn f))) req).1,
            tokenOk ev) ∧
          (∀ ev ∈ (pyAwaitCallG ctx (.patchedAsync (.orig (.asyncFn f)))
            req).1, tokenOk ev)) := by
  refine ⟨fun now a => ⟨rfl, rfl⟩, ?_, ?_, ?_, ?_, ?_⟩
  · intro agent workflow mmodel provider request_id latency cs ops body
    constructor
    · cases body with
      | ok u =>
        left
        simpa [monitorRun, monitorEventArgs] using
          foldl_applyOp_status ops initMonitorState
      | error e => right; rfl
    · intro h
      have hfold := foldl_applyOp_nonneg ops initMonitorState h
        (by simp [initMonitorState]) (by simp [initMonitorState])
      cases body with
      | ok u =>
        refine ⟨fun i hi => ?_, fun o ho => ?_⟩
        · have h2 : (ops.foldl applyOp initMonitorState).input_tokens = i := by
            simpa [monitorRun, monitorEventArgs] using hi
          omega
        · have h2 : (ops.foldl applyOp initMonitorState).output_tokens = o := by
            simpa [monitorRun, monitorEventArgs] using ho
          omega
      | error e =>
        refine ⟨fun i hi => ?_, fun o ho => ?_⟩
        · have h2 : (ops.foldl applyOp initMonitorState).input_tokens = i := by
            simpa [monitorRun, monitorEventArgs, monitorOnError] using hi
          omega
        · have h2 : (ops.foldl applyOp initMonitorState).output_tokens = o := by
            simpa [monitorRun, monitorEventArgs, monitorOnError] using ho
          omega
  · intro agent workflow model request_id latency cs orig
    constructor
    · intro ev hev
      cases orig with
      | ok r =>
        simp only [openaiPatchedRun, List.mem_singleton] at hev
        subst hev; left; rfl
      | error e =>
        simp only [openaiPatchedRun, List.mem_singleton] at hev
        subst hev; right; rfl
    · intro h ev hev
      cases orig with
      | ok r =>
        simp only [openaiPatchedRun, List.mem_singleton] at hev
        subst hev
        rcases hu : r.usage with _ | u
        · exact ⟨fun i hi => by
              simp [openaiSuccessArgs, hu] at hi; omega,
            fun o ho => by simp [openaiSuccessArgs, hu] at ho; omega⟩
        · obtain ⟨h1, h2⟩ := h r u rfl hu
          exact ⟨fun i hi => by
              simp [openaiSuccessArgs, hu] at hi; omega,
            fun o ho => by simp [openaiSuccessArgs, hu] at ho; omega⟩
      | error e =>
        simp only [openaiPatchedRun, List.mem_singleton] at hev
        subst hev
        exact ⟨fun i hi => by simp [handleExceptionArgs] at hi,
          fun o ho => by simp [handleExceptionArgs] at ho⟩
  · intro ctx orig
    constructor
    · intro ev hev
      cases orig with
      | ok r =>
        simp only [anthropicPatchedRun, List.mem_singleton] at hev
        subst hev; left; rfl
      | error e =>
        simp only [anthropicPatchedRun, List.mem_singleton] at hev
        subst hev; right; rfl
    · intro h ev hev
      cases orig with
      | ok r =>
        simp only [anthropicPatchedRun, List.mem_singleton] at hev
        subst hev
        rcases hu : r.usage with _ | u
        · exact ⟨fun i hi => by
              simp [anthropicSuccessArgs, hu] at hi; omega,
            fun o ho => by simp [anthropicSuccessArgs, hu] at ho; omega⟩
        · obtain ⟨h1, h2⟩ := h r u rfl hu
          exact ⟨fun i hi => by
              simp [anthropicSuccessArgs, hu] at hi; omega,
            fun o ho => by simp [anthropicSuccessArgs, hu] at ho; omega⟩
      | error e =>
        simp only [anthropicPatchedRun, List.mem_singleton] at hev
        subst hev
        exact ⟨fun i hi => by simp [handleExceptionArgs] at hi,
          fun o ho => by simp [handleExceptionArgs] at ho⟩
  · intro ctx m req
    exact ⟨(gSem_status_events ctx m req).1, (gSem_status_events ctx m req).2.1⟩
  · intro ctx f req h
    constructor
    · intro ev hev
      rcases hf : f req with e | r
      · simp only [pyCallG, gSem, hf, Except.map, List.nil_append,
          List.mem_singleton] at hev
        subst hev
        exact ⟨fun i hi => by simp [geminiErrorArgs, handleExceptionArgs] at hi,
          fun o ho => by simp [geminiErrorArgs, handleExceptionArgs] at ho⟩
      · simp only [pyCallG, gSem, hf, Except.map, List.nil_append,
          List.mem_singleton] at hev
        subst hev
        rcases hu : r.usage_metadata with _ | u
        · exact ⟨fun i hi => by
              simp [geminiSuccessArgs, usageOfValue, hu] at hi; omega,
            fun o ho => by
              simp [geminiSuccessArgs, usageOfValue, hu] at ho; omega⟩
        · obtain ⟨h1, h2⟩ := h r u hf hu
          exact ⟨fun i hi => by
              simp [geminiSuccessArgs, usageOfValue, hu] at hi; omega,
            fun o ho => by
              simp [geminiSuccessArgs, usageOfValue, hu] at ho; omega⟩
    · intro ev hev
      rcases hf : f req with e | r
      · simp only [pyAwaitCallG, gSem, hf, List.nil_append,
          List.mem_singleton] at hev
        subst hev
        exact ⟨fun i hi => by simp [geminiErrorArgs, handleExceptionArgs] at hi,
          fun o ho => by simp [geminiErrorArgs, handleExceptionArgs] at ho⟩
      · simp only [pyAwaitCallG, gSem, hf, List.nil_append,
          List.mem_singleton] at hev
        subst hev
        rcases hu : r.usage_metadata with _ | u
        · exact ⟨fun i hi => by
              simp [geminiSuccessArgs, usageOfValue, hu] at hi; omega,
            fun o ho => by
              simp [geminiSuccessArgs, usageOfValue, hu] at ho; omega⟩
        · obtain ⟨h1, h2⟩ := h r u hf hu
          exact ⟨fun i hi => by
              simp [geminiSuccessArgs, usageOfValue, hu] at hi; omega,
            fun o ho => by
              simp [geminiSuccessArgs, usageOfValue, hu] at ho; omega⟩

/-- Witness for the amended C6: a concrete monitor history with non-negative
`set_usage` values, and concrete adapter responses with non-negative usage
counts, all satisfying the invariants. -/
theorem dispatched_event_invariants_witness :
    (buildPayload "2024-01-01T00:00:00" (geminiErrorArgs ctxDemo
        ⟨"E", "m"⟩)).event_version = "1.0" ∧
      (buildPayload "2024-01-01T00:00:00" (geminiErrorArgs ctxDemo
          ⟨"E", "m"⟩)).timestamp = "2024-01-01T00:00:00" ++ "Z" ∧
      statusOk (monitorRun "agent" "wf" none "other" "rid" 5
        ⟨none, none, none, none⟩ [TrackerOp.setUsage 150 450] (.ok ())).1 ∧
      tokenOk (monitorRun "agent" "wf" none "other" "rid" 5
        ⟨none, none, none, none⟩ [TrackerOp.setUsage 150 450] (.ok ())).1 ∧
      statusOk (openaiSuccessArgs "agent" "wf" "gpt-4o" "rid" 12
        ⟨none, none, none, none⟩ ⟨some ⟨150, 450⟩⟩) ∧
      tokenOk (openaiSuccessArgs "agent" "wf" "gpt-4o" "rid" 12
        ⟨none, none, none, none⟩ ⟨some ⟨150, 450⟩⟩) ∧
      tokenOk (anthropicSuccessArgs ctxDemo ⟨some ⟨150, 450⟩, none, none⟩) ∧
      tokenOk (geminiSuccessArgs ctxDemo (.resp ⟨some ⟨150, 450⟩⟩)) := by
  have h := dispatched_event_invariants
  have hox : ∀ r u, (Except.ok (⟨some ⟨150, 450⟩⟩ : OResp) :
        Except PyExn OResp) = .ok r → r.usage = some u →
      (0 : Int) ≤ u.prompt_tokens ∧ (0 : Int) ≤ u.completion_tokens := by
    intro r u hr hu
    injection hr with h1
    subst h1
    injection hu with h2
    subst h2
    exact ⟨by decide, by decide⟩
  have hax : ∀ r u, (Except.ok (⟨some ⟨150, 450⟩, none, none⟩ : AResp) :
        Except PyExn AResp) = .ok r → r.usage = some u →
      (0 : Int) ≤ u.input_tokens ∧ (0 : Int) ≤ u.output_tokens := by
    intro r u hr hu
    injection hr with h1
    subst h1
    injection hu with h2
    subst h2
    exact ⟨by decide, by decide⟩
  have hgx : ∀ r u, ((fun _ => Except.ok (⟨some ⟨150, 450⟩⟩ : GResp)) :
        Nat → Except PyExn GResp) 0 = .ok r → r.usage_metadata = some u →
      (0 : Int) ≤ u.prompt_token_count ∧ (0 : Int) ≤ u.candidates_token_count := by
    intro r u hr hu
    injection hr with h1
    subst h1
    injection hu with h2
    subst h2
    exact ⟨by decide, by decide⟩
  refine ⟨(h.1 _ _).1, (h.1 _ _).2,
    (h.2.1 "agent" "wf" none "other" "rid" 5 ⟨none, none, none, none⟩
      [TrackerOp.setUsage 150 450] (.ok ())).1,
    (h.2.1 "agent" "wf" none "other" "rid" 5 ⟨none, none, none, none⟩
      [TrackerOp.setUsage 150 450] (.ok ())).2 (by decide),
    (h.2.2.1 "agent" "wf" "gpt-4o" "rid" 12 ⟨none, none, none, none⟩
      (.ok ⟨some ⟨150, 450⟩⟩)).1 _ (by simp [openaiPatchedRun]),
    (h.2.2.1 "agent" "wf" "gpt-4o" "rid" 12 ⟨none, none, none, none⟩
      (.ok ⟨some ⟨150, 450⟩⟩)).2 hox _ (by simp [openaiPatchedRun]),
    (h.2.2.2.1 ctxDemo (.ok ⟨some ⟨150, 450⟩, none, none⟩)).2 hax _
      (by simp [anthropicPatchedRun]),
    ((h.2.2.2.2.2 ctxDemo (fun _ => .ok ⟨some ⟨150, 450⟩⟩) 0) hgx).1 _
      (by simp [pyCallG, gSem, Except.map])⟩

/-- Claim C4: each installer is idempotent (a second application to an
already-wrapped entry point is a no-op), and an invocation of a
doubly-instrumented entry point submits exactly one event. -/
theorem instrumentation_idempotent_single_event :
    (∀ c, instrumentOpenai (instrumentOpenai c) = instrumentOpenai c) ∧
      (∀ c, instrumentAnthropic (instrumentAnthropic c) = instrumentAnthropic c) ∧
      (∀ inst, instrumentGemini (instrumentGemini inst) = instrumentGemini inst) ∧
      (∀ (ctx : WrapCtx) (f : Nat → Except PyExn OResp) (req : Nat),
        (callOMethod ctx
            (instrumentOpenai (instrumentOpenai ⟨.orig f⟩)).create req).1.length = 1) ∧
      (∀ (ctx : WrapCtx) (b : Bool) (f : Nat → Except PyExn AResp) (req : Nat),
        (invokeAMethod ctx
            (instrumentAnthropic (instrumentAnthropic ⟨b, .orig f⟩)).create req).1.length = 1) ∧
      (∀ (ctx : WrapCtx) (f g : Nat → Except PyExn GResp) (req : Nat),
        (∃ m, (instrumentGemini (instrumentGemini
              ⟨some (.orig (.syncFn f)), some (.orig (.asyncFn g))⟩)).generate_content =
            some m ∧ (pyCallG ctx m req).1.length = 1) ∧
        (∃ m, (instrumentGemini (instrumentGemini
              ⟨some (.orig (.syncFn f)), some (.orig (.asyncFn g))⟩)).generate_content_async =
            some m ∧ (pyAwaitCallG ctx m req).1.length = 1)) := by
  refine ⟨?_, ?_, ?_, ?_, ?_, ?_⟩
  · intro c
    obtain ⟨m⟩ := c
    cases m <;> rfl
  · intro c
    obtain ⟨b, m⟩ := c
    cases m with
    | orig f => cases b <;> rfl
    | patchedSync f => rfl
    | patchedAsync f => rfl
  · intro inst
    obtain ⟨s, a⟩ := inst
    rcases s with _ | (f | d | d) <;> rcases a with _ | (g | e | e) <;> rfl
  · intro ctx f req
    rcases hf : f req with e | r <;>
      simp [callOMethod, instrumentOpenai, openaiPatchedRun, hf]
  · intro ctx b f req
    cases b <;> rcases hf : f req with e | r <;>
      simp [invokeAMethod, instrumentAnthropic, anthropicPatchedRun, hf]
  · intro ctx f g req
    refine ⟨⟨.patchedSync (.orig (.asyncFn g)), rfl, rfl⟩,
      ⟨.patchedAsync (.orig (.asyncFn g)), rfl, ?_⟩⟩
    rcases hg : g req with e | r <;>
      simp [pyAwaitCallG, gSem, hg]

/-- Claim C5 (failing-input evaluation): on a gemini instance exposing both
the sync and the async method, the installed sync wrapper delegates through
the shared loop variable, which after the loop holds the async original; a
plain call of the instrumented `generate_content` therefore returns an
unawaited coroutine object instead of the original sync method's completed
response. -/
theorem gemini_sync_wrapper_returns_coroutine :
    (instrumentGemini geminiDemo).generate_content =
        some (GMethod.patchedSync (GMethod.orig (GFun.asyncFn gAsyncDemo))) ∧
      (∃ body,
        (pyCallG ctxDemo
            (GMethod.patchedSync (GMethod.orig (GFun.asyncFn gAsyncDemo))) 0).2 =
          .ok (PyValue.coroutine body)) ∧
      (gSyncDemo 0).map PyValue.resp = .ok (PyValue.resp ⟨some ⟨3, 4⟩⟩) ∧
      (pyCallG ctxDemo
          (GMethod.patchedSync (GMethod.orig (GFun.asyncFn gAsyncDemo))) 0).2 ≠
        (gSyncDemo 0).map PyValue.resp := by
  refine ⟨rfl, ⟨_, rfl⟩, rfl, ?_⟩
  intro h
  simp only [pyCallG, gSem, gSyncDemo, Except.map] at h
  exact PyValue.noConfusion (Except.ok.inj h)

/-- Claim C9: with a falsy API key the CLI exits 1 without any network
attempt; with a key present, the `ping` command on an HTTP 200 response
exits 0, performed exactly one request, and prints the success indicator. -/
theorem cli_ping_behavior (env : CliEnv) (argv : List String) (net : HttpResult) :
    (env.mynitor_api_key = "" →
        runCli env argv net = ⟨1, 0, [missingKeyLine]⟩) ∧
      (env.mynitor_api_key ≠ "" → (argv.get? 1) = some "ping" →
        net = .status 200 →
        (runCli env argv net).exitCode = 0 ∧
          (runCli env argv net).networkCalls = 1 ∧
          pingSuccessLine ∈ (runCli env argv net).output) := by
  constructor
  · intro h
    simp [runCli, h]
  · intro hkey hping hnet
    have hlen : ¬ argv.length < 2 := by
      intro hlt
      have : argv.get? 1 = none := List.get?_eq_none.mpr (by omega)
      rw [this] at hping
      exact Option.noConfusion hping
    subst hnet
    have hping' : argv[1]? = some "ping" := by simpa using hping
    simp [runCli, hkey, hlen, hping']

/-- Witness for C9: the missing-key path at a concrete environment, and the
200-response ping path at a concrete key, argv and collector response. -/
theorem cli_ping_behavior_witness :
    runCli ⟨"", ""⟩ ["prog", "ping"] (.status 200) = ⟨1, 0, [missingKeyLine]⟩ ∧
      ((runCli ⟨"sk-live-1234", ""⟩ ["prog", "ping"] (.status 200)).exitCode = 0 ∧
        (runCli ⟨"sk-live-1234", ""⟩ ["prog", "ping"] (.status 200)).networkCalls = 1 ∧
        pingSuccessLine ∈ (runCli ⟨"sk-live-1234", ""⟩ ["prog", "ping"]
          (.status 200)).output) :=
  ⟨(cli_ping_behavior ⟨"", ""⟩ ["prog", "ping"] (.status 200)).1 rfl,
    (cli_ping_behavior ⟨"sk-live-1234", ""⟩ ["prog", "ping"] (.status 200)).2
      (by decide) rfl rfl⟩

/-- Claim C10: the derived default workflow name depends only on the `file`
attribute of the callsite; two callsites with the same file derive the same
name, whatever their function names and line numbers. -/
theorem derive_workflow_name_depends_only_on_file (c₁ c₂ : Callsite)
    (h : c₁.file = c₂.file) :
    deriveWorkflowName c₁ = deriveWorkflowName c₂ := by
  simp only [deriveWorkflowName, h]

/-- Witness for C10 at two concrete callsites sharing a file but differing in
function name and line number. -/
theorem derive_workflow_name_depends_only_on_file_witness :
    deriveWorkflowName ⟨some "billing.py", some 3, some "charge", none⟩ =
      deriveWorkflowName ⟨some "billing.py", some 99, some "refund", none⟩ :=
  derive_workflow_name_depends_only_on_file _ _ rfl

/-- Claim C8: with no explicit workflow and no configured workflow id, the
workflow name is the one derived from the callsite, and for the callsite
with file "billing.py" and function "charge" it equals "billing". -/
theorem derived_workflow_for_billing_callsite :
    chooseWorkflow none none ⟨some "billing.py", none, some "charge", none⟩ =
        deriveWorkflowName ⟨some "billing.py", none, some "charge", none⟩ ∧
      deriveWorkflowName ⟨some "billing.py", none, some "charge", none⟩ = "billing" := by
  constructor
  · rfl
  · decide

/-- Claim C7: `atexit.register(self.flush)` happens if and only if none of the
serverless indicator variables has a non-empty value. -/
theorem auto_flush_registered_iff_not_serverless (env : String → String) :
    setupAutoFlush env = AutoFlushAction.registeredAtexitFlush ↔
      ∀ k ∈ serverlessKeys, env k = "" := by
  have hiff : isServerless env = false ↔ ∀ k ∈ serverlessKeys, env k = "" := by
    simp [isServerless, List.any_eq_false]
  rw [← hiff]
  unfold setupAutoFlush
  cases h : isServerless env <;> simp [h]

end Mynitor
